import Mathlib

/-!
Verification development for the textbook-chatbot retrieval engine.

We give a shallow embedding of the three core Python modules:
* `Backend/embeddings/embedding_indexer.py` — chunk validation, metadata
  mapping, embedding batching and FAISS index construction;
* `Backend/embeddings/search_faiss.py` — collection loading and query-time
  search, score formatting;
* `Backend/embeddings/llm_answer.py` — the two-provider answer-synthesis
  failover chain.

Conventions of the embedding:
* Python floats are modelled exactly: distances and score arithmetic in the
  search layer use `ℚ` (every IEEE float is a rational), while the index-build
  normalization (which divides by a square root) is modelled over `ℝ`.
* Python dictionaries for chunks are modelled by a closed record type covering
  exactly the keys the source reads.
* External collaborators (the sentence-transformer encoder and the FAISS index
  search routine) are parameters of the model, as the spec treats them as
  opaque collaborators; everything the repository's own code does to their
  inputs and outputs is modelled explicitly.
-/

namespace TextbookChatbot

/-- Sum of squares of a list of scalars (the squared L2 norm). -/
def sumSq {α : Type} [Mul α] [Add α] [Zero α] (v : List α) : α :=
  (v.map (fun x => x * x)).sum

/-- Python's `str.strip()`: remove leading and trailing whitespace.  Defined
structurally on the character list so that it evaluates by kernel reduction. -/
def pyStrip (s : String) : String :=
  ⟨((s.data.dropWhile Char.isWhitespace).reverse.dropWhile Char.isWhitespace).reverse⟩

/-- Helper for `pyWords`: scan the characters, accumulating the current word
in reverse. -/
def wordsAux : List Char → List Char → List String
  | [], cur => if cur.isEmpty then [] else [⟨cur.reverse⟩]
  | c :: cs, cur =>
    if c.isWhitespace then
      if cur.isEmpty then wordsAux cs [] else ⟨cur.reverse⟩ :: wordsAux cs []
    else wordsAux cs (c :: cur)

/-- Python's `text.split()` with no argument: split on runs of whitespace,
discarding empty pieces. -/
def pyWords (s : String) : List String := wordsAux s.data []

/-- Python's `str.lower()`, character by character. -/
def pyLower (s : String) : String := ⟨s.data.map Char.toLower⟩

/-! ## Model of `embedding_indexer.py` -/

/-- The value found under the `'text'` key of a raw chunk dictionary:
either a Python string or some non-string value. -/
inductive TextField where
  | str (s : String)
  | nonStr
deriving DecidableEq

/-- The optional pass-through fields that `create_metadata_mapping`
copies when present (`index`, `source_file`, `method`, `sentence_count`). -/
structure Extra where
  index : Option Int := none
  source_file : Option String := none
  method : Option String := none
  sentence_count : Option Nat := none
deriving DecidableEq

/-- A raw chunk record as read from the chunks JSON file: either not a
dictionary at all, or a dictionary with an optional `id` (modelled as a string
when present), an optional `text` field, and the optional pass-through fields. -/
inductive RawChunk where
  | nonDict
  | dict (id : Option String) (text : Option TextField) (extra : Extra)
deriving DecidableEq

/-- The sequential validity checks of `validate_chunks`
(`embedding_indexer.py`, lines 68–101): must be a dictionary, must have an
`id` key, must have a `text` key holding a string, whose stripped form is
non-empty and at least 10 characters. -/
def chunkCheck : RawChunk → Bool
  | .nonDict => false
  | .dict id text _ =>
    match id with
    | none => false
    | some _ =>
      match text with
      | none => false
      | some .nonStr => false
      | some (.str t) =>
        if pyStrip t = "" then false
        else decide (10 ≤ (pyStrip t).length)

/-- `validate_chunks` (`embedding_indexer.py`, lines 63–109): walks the input
in order, appending each chunk that passes all checks to the valid list and
counting the skipped ones (which are logged, never raised on). -/
def validate_chunks : List RawChunk → List RawChunk × Nat
  | [] => ([], 0)
  | c :: rest =>
    let r := validate_chunks rest
    if chunkCheck c then (c :: r.1, r.2) else (r.1, r.2 + 1)

/-- A metadata entry as built by `create_metadata_mapping`
(`embedding_indexer.py`, lines 185–205).  The indexer never sets `chapter`
or `section_` (they are not in its pass-through list), but the search layer
reads them from the pickled table, so they appear here as optional fields. -/
structure Metadata where
  faiss_id : Nat
  chunk_id : String
  text : String
  char_count : Nat
  word_count : Nat
  index : Option Int := none
  source_file : Option String := none
  method : Option String := none
  sentence_count : Option Nat := none
  chapter : Option String := none
  section_ : Option String := none
deriving DecidableEq

/-- The metadata dictionary built for position `i` from one chunk
(`embedding_indexer.py`, lines 190–201).  `none` models the Python
`KeyError`/`TypeError` that `chunk['id']` / `chunk['text']` would raise on a
record that did not pass validation. -/
def chunkMetadata (i : Nat) : RawChunk → Option Metadata
  | .nonDict => none
  | .dict id text extra =>
    match id, text with
    | some cid, some (.str t) =>
      some { faiss_id := i, chunk_id := cid, text := t,
             char_count := t.length, word_count := (pyWords t).length,
             index := extra.index, source_file := extra.source_file,
             method := extra.method, sentence_count := extra.sentence_count }
    | _, _ => none

/-- The enumeration loop of `create_metadata_mapping`, carrying the running
position `i`. -/
def metadataFrom (i : Nat) : List RawChunk → Option (List Metadata)
  | [] => some []
  | c :: rest => do
    let m ← chunkMetadata i c
    let ms ← metadataFrom (i + 1) rest
    pure (m :: ms)

/-- `create_metadata_mapping` (`embedding_indexer.py`, lines 185–205):
one metadata entry per chunk, `faiss_id` equal to the zero-based position. -/
def create_metadata_mapping (chunks : List RawChunk) : Option (List Metadata) :=
  metadataFrom 0 chunks

/-- The text of one chunk (`chunk['text']`), as extracted by
`generate_embeddings` line 140. -/
def chunkText : RawChunk → Option String
  | .dict _ (some (.str t)) _ => some t
  | _ => none

/-- `texts = [chunk['text'] for chunk in chunks]` (line 140). -/
def chunkTexts (chunks : List RawChunk) : Option (List String) :=
  chunks.mapM chunkText

/-- The batch slices `texts[i:i+batch_size]` for `i in range(0, len(texts),
batch_size)` (`embedding_indexer.py`, line 145).  For `bs = 0` Python's
`range` would raise; we return `[]` (the hypotheses of every theorem using
this require `0 < bs`). -/
def batches {α : Type} (bs : Nat) (l : List α) : List (List α) :=
  if hbs : bs = 0 then []
  else if hl : l.isEmpty then []
  else l.take bs :: batches bs (l.drop bs)
termination_by l.length
decreasing_by
  simp only [List.length_drop]
  have hne : l ≠ [] := fun h => by simp [h] at hl
  have hpos : 0 < l.length := List.length_pos.mpr hne
  omega

/-- `generate_embeddings` (`embedding_indexer.py`, lines 131–158): encode the
texts batch by batch and stack the per-batch results (`np.vstack`).  The
encoder itself is the external sentence-transformer model, passed in as a
function applied to each text of a batch (the gateway contract: one vector
per input text, order preserved). -/
def generate_embeddings (encode : String → List ℝ) (texts : List String)
    (bs : Nat) : List (List ℝ) :=
  ((batches bs texts).map (fun b => b.map encode)).flatten

/-- `faiss.normalize_L2` applied to one vector: divide every coordinate by
the L2 norm (`embedding_indexer.py`, line 174). -/
noncomputable def l2normalize (v : List ℝ) : List ℝ :=
  v.map (fun x => x / Real.sqrt (sumSq v))

/-- `create_faiss_index` (`embedding_indexer.py`, lines 161–182): a flat L2
index stores the embeddings as given; an inner-product index stores them
L2-normalized; any other index type is a `ValueError`.  The index itself is
modelled as the ordered list of stored vectors, so `ntotal` is its length. -/
noncomputable def create_faiss_index (embeddings : List (List ℝ)) (index_type : String) :
    Except String (List (List ℝ)) :=
  if pyLower index_type = "flat" then
    .ok embeddings
  else if pyLower index_type = "ip" then
    .ok (embeddings.map l2normalize)
  else
    .error ("Unsupported index type: " ++ index_type)

/-! ## Model of `search_faiss.py` -/

/-- The content of the pickled metadata file: a Python list of metadata
entries, or some other pickled value (which `_load_metadata` rejects). -/
inductive PickleVal where
  | list (entries : List Metadata)
  | notList
deriving DecidableEq

/-- The on-disk state relevant to `MultiTextbookSearcher.__init__`: whether
the three per-collection files exist, the parsed config fields the loader
reads, the loaded FAISS index size and the unpickled metadata value. -/
structure FilesOnDisk where
  config_exists : Bool
  config_model_name : Option String
  config_textbook_name : Option String
  index_exists : Bool
  index_ntotal : Nat
  metadata_exists : Bool
  metadata_val : PickleVal
deriving DecidableEq

/-- A successfully initialized searcher: the loaded metadata table, the index
size, the resolved model name and the display name. -/
structure LoadedSearcher where
  metadata : List Metadata
  ntotal : Nat
  model_name : String
  textbook_name : String
deriving DecidableEq

/-- Outcome of `MultiTextbookSearcher.__init__`: either one of the
`sys.exit(1)` error paths (with the error message printed), or a loaded
searcher. -/
inductive InitResult where
  | exitErr (msg : String)
  | ok (s : LoadedSearcher)
deriving DecidableEq

/-- The load chain of `MultiTextbookSearcher.__init__` (`search_faiss.py`,
lines 74–77): `_load_config` (lines 88–111) exits if the config file is
missing; `_load_index` (lines 113–134) exits if the index file is missing;
`_load_metadata` (lines 136–167) exits if the metadata file is missing or the
unpickled value is not a list — it performs no size check against the index;
`_load_model` (lines 169–189) resolves the model as
`config.get('model_name', self.model_name)`, silently overriding the
requested model when the config differs (an INFO log, never an error). -/
def initSearcher (textbook_id : String) (model_name : String)
    (fs : FilesOnDisk) : InitResult :=
  if !fs.config_exists then
    .exitErr "Config file not found"
  else if !fs.index_exists then
    .exitErr "FAISS index not found"
  else if !fs.metadata_exists then
    .exitErr "Metadata file not found"
  else
    match fs.metadata_val with
    | .notList => .exitErr "Metadata must be a list"
    | .list ms =>
      .ok { metadata := ms, ntotal := fs.index_ntotal,
            model_name := fs.config_model_name.getD model_name,
            textbook_name := fs.config_textbook_name.getD textbook_id }

/-- The query-time searcher state used by `MultiTextbookSearcher.search`:
the metadata table and config identity, together with the two external
collaborators — the sentence-transformer encoder (`self.model.encode`) and
the FAISS index search routine (`self.index.search`), which for a query
vector and `k` yields the list of `(distance, position)` pairs (positions
are FAISS `int64` values, hence `Int`: FAISS pads with `-1` when it has
fewer than `k` vectors). -/
structure Searcher where
  textbook_id : String
  config_textbook_name : Option String
  metadata : List Metadata
  encode : String → List ℚ
  searchFn : List ℚ → Nat → List (ℚ × Int)

/-- A search-result metadata record: a copy of the looked-up entry with the
collection identity merged in (`search_faiss.py`, lines 275–278). -/
structure ResultMeta where
  base : Metadata
  textbook_id : String
  textbook_name : String
deriving DecidableEq

/-- Lines 275–278: copy the metadata entry and attach
`textbook_id` and `textbook_name = config.get('textbook_name', textbook_id)`. -/
def withTextbook (s : Searcher) (m : Metadata) : ResultMeta :=
  { base := m, textbook_id := s.textbook_id,
    textbook_name := s.config_textbook_name.getD s.textbook_id }

/-- Python list subscription `l[i]` with an `Int` subscript: non-negative
indices are looked up directly, negative indices wrap around from the end
(`l[-1]` is the last element), and anything outside `[-len, len)` is an
`IndexError`, modelled as `none`. -/
def pyGet {α : Type} (l : List α) (i : Int) : Option α :=
  if 0 ≤ i then l[i.toNat]?
  else if (-i).toNat ≤ l.length then l[l.length - (-i).toNat]?
  else none

/-- The result-collection loop of `MultiTextbookSearcher.search`
(`search_faiss.py`, lines 272–279): for each `(distance, idx)` pair, pairs
with `idx < len(self.metadata)` have their metadata looked up (Python list
subscription — negative `idx` wraps around) and are appended with the
collection identity attached; pairs with `idx ≥ len(self.metadata)` are
skipped.  An `IndexError` inside the loop would be re-raised by the
surrounding `except` as a "Search failed" exception. -/
def resultsLoop (s : Searcher) : List (ℚ × Int) → Except String (List (ℚ × ResultMeta))
  | [] => .ok []
  | (d, idx) :: rest =>
    if idx < (s.metadata.length : Int) then
      match pyGet s.metadata idx with
      | some m => (resultsLoop s rest).map (fun rs => (d, withTextbook s m) :: rs)
      | none => .error "Search failed: list index out of range"
    else
      resultsLoop s rest

/-- Line 263: `query_embedding = self.model.encode([query.strip()])` — the
query vector handed to the FAISS index is the raw encoder output of the
stripped query; no normalization of any kind is applied to it. -/
def query_embedding (s : Searcher) (query : String) : List ℚ :=
  s.encode (pyStrip query)

/-- `MultiTextbookSearcher.search` (`search_faiss.py`, lines 241–284):
reject an empty/whitespace-only query and a non-positive `top_k`
(`ValueError`), clamp `top_k` to `len(self.metadata)`, encode the stripped
query, run the FAISS search and collect the results. -/
def search (s : Searcher) (query : String) (top_k : Int) :
    Except String (List (ℚ × ResultMeta)) :=
  if pyStrip query = "" then .error "Query cannot be empty"
  else if top_k ≤ 0 then .error "top_k must be positive"
  else
    let k := min top_k (s.metadata.length : Int)
    resultsLoop s (s.searchFn (query_embedding s query) k.toNat)

/-- Round-half-to-even on a rational, the semantics of Python's built-in
`round` for the integer part. -/
def round_half_even (x : ℚ) : ℤ :=
  if x - ⌊x⌋ < 1 / 2 then ⌊x⌋
  else if 1 / 2 < x - ⌊x⌋ then ⌊x⌋ + 1
  else if ⌊x⌋ % 2 = 0 then ⌊x⌋ else ⌊x⌋ + 1

/-- Python's `round(x, 4)`: round half-to-even at the fourth decimal digit. -/
def round_py4 (x : ℚ) : ℚ :=
  ((round_half_even (x * 10000) : ℤ) : ℚ) / 10000

/-- The unrounded similarity transform `1 / (1 + distance)` of
`format_results_json` (`search_faiss.py`, line 317). -/
def similarity_raw (d : ℚ) : ℚ := 1 / (1 + d)

/-- The displayed similarity score: `round(1 / (1 + distance), 4)`
(`search_faiss.py`, line 317). -/
def similarity_score (d : ℚ) : ℚ := round_py4 (similarity_raw d)

/-- One formatted result item of `format_results_json`
(`search_faiss.py`, lines 315–331). -/
structure ResultItem where
  rank : Nat
  score : ℚ
  distance : ℚ
  chunk_id : String
  content : String
  word_count : Nat
  textbook_id : String
  textbook_name : String
  chapter : Option String := none
  section_ : Option String := none
deriving DecidableEq

/-- Lines 315–331: the formatted item for one `(distance, metadata)` pair at
1-based `rank`. -/
def formatItem (rank : Nat) (d : ℚ) (m : ResultMeta) : ResultItem :=
  { rank := rank, score := round_py4 (similarity_raw d), distance := round_py4 d,
    chunk_id := m.base.chunk_id, content := m.base.text,
    word_count := m.base.word_count, textbook_id := m.textbook_id,
    textbook_name := m.textbook_name, chapter := m.base.chapter,
    section_ := m.base.section_ }

/-- `format_results_json` (`search_faiss.py`, lines 286–342), results part:
enumerate the result pairs from rank 1. -/
def format_results_json (results : List (ℚ × ResultMeta)) : List ResultItem :=
  (List.range results.length).zipWith
    (fun i p => formatItem (i + 1) p.1 p.2) results

/-! ## Model of `llm_answer.py` -/

/-- Outcome of one provider call (`call_together_ai` / `call_openrouter`):
`ok` carries the stripped answer text those functions return on success
(possibly empty, since `content.strip()` can be `""`), `error` carries the
exception message `str(e)`. -/
abbrev ProviderOutcome := Except String String

/-- The success payload printed by `main` (`llm_answer.py`, lines 174–181).
Note there is no `details` field on this path. -/
structure SuccessResult where
  answer : String
  api_used : String
  model_used : String
  chunks_processed : Nat
  query : String
  status : String
deriving DecidableEq

/-- The total-failure payload printed by `main` (`llm_answer.py`,
lines 164–169).  Note there is no `answer` field on this path. -/
structure FailureResult where
  error : String
  details : List String
  query : String
  chunks_provided : Nat
deriving DecidableEq

/-- The possible outcomes of `main` in `llm_answer.py`. -/
inductive MainResult where
  | usage (received_args : Nat)
  | emptyQuery
  | noChunks
  | allFailed (r : FailureResult)
  | success (r : SuccessResult)
deriving DecidableEq

/-- `chunks = [chunk.strip() for chunk in sys.argv[2:] if chunk.strip()]`
(`llm_answer.py`, line 132): strip each argument and keep the non-empty ones. -/
def strippedChunks (args : List String) : List String :=
  (args.map pyStrip).filter (fun c => c ≠ "")

/-- The falsiness test `if not answer` of `llm_answer.py` lines 156 and 163:
the answer variable is still `None`, or holds the empty string.  The answer
and `api_used` variables are modelled as one option pair since the source
always assigns them together. -/
def answerFalsy : Option (String × String) → Bool
  | none => true
  | some (a, _) => a = ""

/-- `main` of `llm_answer.py` (lines 120–183), with the two provider calls
abstracted to their outcomes.  Steps: the argument-count check (line 122),
`user_query = sys.argv[1].strip()` (131), chunk stripping/filtering (132),
the empty-query and empty-chunk checks (134, 139), then the failover chain
(lines 144–161): try Together.ai; if it raised, record
`"Together.ai failed: " ++ e`; if the answer is falsy (never assigned, or
the empty string) try OpenRouter, recording `"OpenRouter failed: " ++ e` on
error; finally (lines 163–183) emit the structured failure if the answer is
still falsy, else the success payload with `api_used` and the matching
`model_used`. -/
def llm_main : List String → ProviderOutcome → ProviderOutcome → MainResult
  | [], _, _ => .usage 0
  | [_], _, _ => .usage 1
  | q :: c0 :: cs, together, openrouter =>
    let user_query := pyStrip q
    let chunks := strippedChunks (c0 :: cs)
    if user_query = "" then .emptyQuery
    else if chunks = [] then .noChunks
    else
      let step1 : Option (String × String) × List String :=
        match together with
        | .ok a => (some (a, "together.ai"), [])
        | .error e => (none, ["Together.ai failed: " ++ e])
      let step2 : Option (String × String) × List String :=
        if answerFalsy step1.1 then
          match openrouter with
          | .ok a => (some (a, "openrouter"), step1.2)
          | .error e => (step1.1, step1.2 ++ ["OpenRouter failed: " ++ e])
        else step1
      match step2 with
      | (some (a, u), errs) =>
        if a = "" then
          .allFailed { error := "All LLM APIs failed", details := errs,
                       query := user_query, chunks_provided := chunks.length }
        else
          .success { answer := a, api_used := u,
                     model_used := if u = "openrouter" then
                         "mistralai/mistral-7b-instruct"
                       else "mistralai/Mistral-7B-Instruct-v0.1",
                     chunks_processed := chunks.length,
                     query := user_query, status := "success" }
      | (none, errs) =>
        .allFailed { error := "All LLM APIs failed", details := errs,
                     query := user_query, chunks_provided := chunks.length }

/-! ## Claims about the answer-synthesis failover chain (`llm_answer.py`) -/

/-- **C5.** The Answer Synthesizer tries the providers strictly in order
(Together.ai first, then OpenRouter) and returns as soon as the first
provider succeeds with a non-empty answer: the outcome is then independent
of the OpenRouter behaviour (it is never invoked), and the success payload
names the succeeding provider in its `api_used` field (the spec's
`provider_used`); the `SuccessResult` record carries no `details` field, so
no error information from earlier failed providers is surfaced.  When
Together.ai raises and OpenRouter succeeds, the payload names
`"openrouter"`. -/
theorem C5_provider_failover (q c0 : String) (cs : List String)
    (o1 o2 : ProviderOutcome) (a b e : String)
    (hq : pyStrip q ≠ "") (hc : strippedChunks (c0 :: cs) ≠ []) :
    (a ≠ "" →
      llm_main (q :: c0 :: cs) (.ok a) o1 = llm_main (q :: c0 :: cs) (.ok a) o2
      ∧ llm_main (q :: c0 :: cs) (.ok a) o1
        = .success ⟨a, "together.ai", "mistralai/Mistral-7B-Instruct-v0.1",
            (strippedChunks (c0 :: cs)).length, pyStrip q, "success"⟩)
    ∧ (b ≠ "" →
      llm_main (q :: c0 :: cs) (.error e) (.ok b)
        = .success ⟨b, "openrouter", "mistralai/mistral-7b-instruct",
            (strippedChunks (c0 :: cs)).length, pyStrip q, "success"⟩) := by
  refine ⟨fun ha => ⟨?_, ?_⟩, fun hb => ?_⟩ <;>
    simp [llm_main, answerFalsy, hq, hc, *]

/-- Witness for C5 at a concrete invocation. -/
theorem C5_provider_failover_witness :
    pyStrip "q" ≠ ""
    ∧ llm_main ["q", "chunk one"] (.ok "ans") (.ok "other")
        = llm_main ["q", "chunk one"] (.ok "ans") (.error "boom") :=
  ⟨by decide,
    ((C5_provider_failover "q" "chunk one" [] (.ok "other") (.error "boom")
      "ans" "b" "e" (by decide) (by decide)).1 (by decide)).1⟩

/-- **C6.** If both providers raise, `main` returns the structured failure
with exactly one error entry per provider, in call order (Together.ai first,
then OpenRouter); the `FailureResult` record has no answer field, so no
partial or guessed answer is ever returned on this path. -/
theorem C6_all_providers_fail (q c0 : String) (cs : List String) (e1 e2 : String)
    (hq : pyStrip q ≠ "") (hc : strippedChunks (c0 :: cs) ≠ []) :
    llm_main (q :: c0 :: cs) (.error e1) (.error e2)
      = .allFailed ⟨"All LLM APIs failed",
          ["Together.ai failed: " ++ e1, "OpenRouter failed: " ++ e2], pyStrip q,
          (strippedChunks (c0 :: cs)).length⟩ := by
  simp [llm_main, answerFalsy, hq, hc]

/-- Witness for C6 at a concrete invocation. -/
theorem C6_all_providers_fail_witness :
    pyStrip "q" ≠ ""
    ∧ llm_main ["q", "chunk one"] (.error "e1") (.error "e2")
      = .allFailed ⟨"All LLM APIs failed",
          ["Together.ai failed: e1", "OpenRouter failed: e2"], "q", 1⟩ :=
  ⟨by decide, C6_all_providers_fail "q" "chunk one" [] "e1" "e2" (by decide) (by decide)⟩

/-- **C10.** The second provider is attempted exactly when the first raised
or completed with an empty (falsy after stripping) answer: (1) after an
empty Together.ai answer and an OpenRouter error, the failure carries only
the OpenRouter entry — one entry though two providers were attempted, and no
entry for Together.ai; (2) after an empty Together.ai answer, a non-empty
OpenRouter answer is returned as the success (so the second provider was
invoked and used); (3) after a non-empty Together.ai answer, the outcome
does not depend on OpenRouter at all (it is not attempted); (4) after a
Together.ai error, a non-empty OpenRouter answer is returned (it is
attempted). -/
theorem C10_empty_answer_fallback (q c0 : String) (cs : List String)
    (hq : pyStrip q ≠ "") (hc : strippedChunks (c0 :: cs) ≠ []) :
    (∀ e2, llm_main (q :: c0 :: cs) (.ok "") (.error e2)
      = .allFailed ⟨"All LLM APIs failed", ["OpenRouter failed: " ++ e2], pyStrip q,
          (strippedChunks (c0 :: cs)).length⟩)
    ∧ (∀ b, b ≠ "" → llm_main (q :: c0 :: cs) (.ok "") (.ok b)
      = .success ⟨b, "openrouter", "mistralai/mistral-7b-instruct",
          (strippedChunks (c0 :: cs)).length, pyStrip q, "success"⟩)
    ∧ (∀ a, a ≠ "" → ∀ o1 o2,
        llm_main (q :: c0 :: cs) (.ok a) o1 = llm_main (q :: c0 :: cs) (.ok a) o2)
    ∧ (∀ e1 b, b ≠ "" → llm_main (q :: c0 :: cs) (.error e1) (.ok b)
      = .success ⟨b, "openrouter", "mistralai/mistral-7b-instruct",
          (strippedChunks (c0 :: cs)).length, pyStrip q, "success"⟩) := by
  refine ⟨fun e2 => ?_, fun b hb => ?_, fun a ha o1 o2 => ?_, fun e1 b hb => ?_⟩ <;>
    simp [llm_main, answerFalsy, hq, hc, *]

/-- Witness for C10 at a concrete invocation: Together.ai completes with an
empty answer, OpenRouter raises; the failure has a single error entry. -/
theorem C10_empty_answer_fallback_witness :
    pyStrip "q" ≠ ""
    ∧ llm_main ["q", "chunk one"] (.ok "") (.error "e2")
      = .allFailed ⟨"All LLM APIs failed", ["OpenRouter failed: e2"], "q", 1⟩ :=
  ⟨by decide,
    (C10_empty_answer_fallback "q" "chunk one" [] (by decide) (by decide)).1 "e2"⟩

/-! ## Claims about the Chunk Validator (`validate_chunks`) -/

/-- The eligibility predicate exactly as claim C2 states it: a structured
record (dictionary) with a **non-empty** `id`, a `text` field that is a
string, and a trimmed `text` that is non-empty and at least 10 characters. -/
def eligibleC2claim (c : RawChunk) : Bool :=
  match c with
  | .nonDict => false
  | .dict id text _ =>
    (match id with
     | some s => decide (s ≠ "")
     | none => false)
    && (match text with
        | some (.str t) => decide (pyStrip t ≠ "") && decide (10 ≤ (pyStrip t).length)
        | _ => false)

/-- The amended eligibility predicate: same as the claim's, except that the
`id` field is only required to be **present** (the source checks
`'id' not in chunk`, never that the id is non-empty). -/
def eligibleC2amended (c : RawChunk) : Bool :=
  match c with
  | .nonDict => false
  | .dict id text _ =>
    id.isSome
    && (match text with
        | some (.str t) => decide (pyStrip t ≠ "") && decide (10 ≤ (pyStrip t).length)
        | _ => false)

/-- The sequential checks of `validate_chunks` coincide with the amended
flat eligibility predicate. -/
theorem chunkCheck_eq_amended (c : RawChunk) : chunkCheck c = eligibleC2amended c := by
  cases c with
  | nonDict => rfl
  | dict id text extra =>
    cases id with
    | none => rfl
    | some cid =>
      cases text with
      | none => rfl
      | some tf =>
        cases tf with
        | nonStr => rfl
        | str t =>
          by_cases h : pyStrip t = "" <;>
            simp [chunkCheck, eligibleC2amended, h]

/-- **C2 (counterexample).** A record whose `id` is the empty string but
whose text is valid is *kept* by `validate_chunks` (and is not skipped),
although the claim's eligibility predicate — which demands a non-empty
`id` — rejects it. -/
theorem C2_counterexample :
    (validate_chunks [.dict (some "") (some (.str "abcdefghij")) {}]).1
        = [.dict (some "") (some (.str "abcdefghij")) {}]
    ∧ (validate_chunks [.dict (some "") (some (.str "abcdefghij")) {}]).2 = 0
    ∧ eligibleC2claim (.dict (some "") (some (.str "abcdefghij")) {}) = false := by
  refine ⟨by decide, by decide, by decide⟩

/-- **C2 (amended).** `validate_chunks` returns exactly the sub-list of
records that are dictionaries with an `id` field **present**, a `text` field
that is a string, and a trimmed text that is non-empty and at least 10
characters; every other record is dropped (counted, not raised on), and a
(possibly empty) list is always returned — the skipped count is exactly the
number of ineligible records. -/
theorem C2_validator_filter (l : List RawChunk) :
    (validate_chunks l).1 = l.filter eligibleC2amended
    ∧ (validate_chunks l).2 = (l.filter (fun c => !eligibleC2amended c)).length := by
  induction l with
  | nil => exact ⟨rfl, rfl⟩
  | cons c rest ih =>
    rcases ih with ⟨ih1, ih2⟩
    by_cases h : chunkCheck c = true
    · have ha : eligibleC2amended c = true := chunkCheck_eq_amended c ▸ h
      simp [validate_chunks, List.filter, h, ha, ih1, ih2]
    · have hb : eligibleC2amended c = false := by
        rw [← chunkCheck_eq_amended]; exact Bool.not_eq_true _ |>.mp h
      simp [validate_chunks, List.filter, h, hb, ih1, ih2]

/-! ## Claims about `MultiTextbookSearcher.search` -/

/-- A Python int index that is non-negative and within bounds is looked up
directly by `pyGet`. -/
theorem pyGet_of_nonneg {α : Type} (l : List α) (i : Int) (h0 : 0 ≤ i)
    (hlt : i < (l.length : Int)) : ∃ m, pyGet l i = some m := by
  have h2 : i.toNat < l.length := by omega
  exact ⟨l.get ⟨i.toNat, h2⟩, by simp [pyGet, h0]⟩

/-- When every returned position is non-negative and within the metadata
bounds, the result loop succeeds and keeps every pair. -/
theorem resultsLoop_ok_of_bounds (s : Searcher) (pairs : List (ℚ × Int))
    (hb : ∀ p ∈ pairs, 0 ≤ p.2 ∧ p.2 < (s.metadata.length : Int)) :
    ∃ rs, resultsLoop s pairs = .ok rs ∧ rs.length = pairs.length := by
  induction pairs with
  | nil => exact ⟨[], rfl, rfl⟩
  | cons p rest ih =>
    obtain ⟨d, idx⟩ := p
    obtain ⟨rs, hrs, hlen⟩ := ih (fun p hp => hb p (List.mem_cons_of_mem _ hp))
    obtain ⟨h0, hlt⟩ := hb (d, idx) (List.mem_cons_self _ _)
    obtain ⟨m, hm⟩ := pyGet_of_nonneg s.metadata idx h0 hlt
    refine ⟨(d, withTextbook s m) :: rs, ?_, by simp [hlen]⟩
    rw [resultsLoop, if_pos hlt, hm, hrs]
    rfl

/-- **C3.** Retriever search validation and clamping: (1) an empty or
whitespace-only query is rejected with the invalid-argument error `"Query
cannot be empty"`, producing no partial result (the error carries no result
list); (2) a non-positive `top_k` is rejected with `"top_k must be
positive"`; (3) any two `top_k` values exceeding the collection size produce
identical behaviour — `top_k` is clamped to the collection size before it
reaches the index; (4) with `top_k` above the collection size and a FAISS
index honouring the exact-search contract (`k` requested results with valid
positions when `k` equals the number of stored vectors), search succeeds and
returns all `metadata.length` entries. -/
theorem C3_search_validation :
    (∀ (s : Searcher) (q : String) (k : Int), pyStrip q = "" →
      search s q k = .error "Query cannot be empty")
    ∧ (∀ (s : Searcher) (q : String) (k : Int), pyStrip q ≠ "" → k ≤ 0 →
      search s q k = .error "top_k must be positive")
    ∧ (∀ (s : Searcher) (q : String) (k1 k2 : Int),
        (s.metadata.length : Int) < k1 → (s.metadata.length : Int) < k2 →
        search s q k1 = search s q k2)
    ∧ (∀ (s : Searcher) (q : String) (k : Int), pyStrip q ≠ "" →
        (s.metadata.length : Int) < k →
        (∀ qv, (s.searchFn qv s.metadata.length).length = s.metadata.length) →
        (∀ qv p, p ∈ s.searchFn qv s.metadata.length →
          0 ≤ p.2 ∧ p.2 < (s.metadata.length : Int)) →
        ∃ rs, search s q k = .ok rs ∧ rs.length = s.metadata.length) := by
  have unfold_clamped : ∀ (s : Searcher) (q : String) (k : Int), pyStrip q ≠ "" →
      (s.metadata.length : Int) < k →
      search s q k = resultsLoop s (s.searchFn (query_embedding s q) s.metadata.length) := by
    intro s q k hq hk
    have hk0 : ¬ (k ≤ 0) := by omega
    have hmin : min k (s.metadata.length : Int) = (s.metadata.length : Int) :=
      min_eq_right (le_of_lt hk)
    simp [search, hq, hk0, hmin]
  refine ⟨fun s q k hq => by simp [search, hq], fun s q k hq hk => ?_, ?_, ?_⟩
  · have hq2 : ¬ (pyStrip q = "") := hq
    simp [search, hq2, hk]
  · intro s q k1 k2 hk1 hk2
    by_cases hq : pyStrip q = ""
    · simp [search, hq]
    · rw [unfold_clamped s q k1 hq hk1, unfold_clamped s q k2 hq hk2]
  · intro s q k hq hk hlen hpos
    rw [unfold_clamped s q k hq hk]
    obtain ⟨rs, hrs, hrslen⟩ := resultsLoop_ok_of_bounds s
      (s.searchFn (query_embedding s q) s.metadata.length)
      (hpos (query_embedding s q))
    exact ⟨rs, hrs, by rw [hrslen, hlen]⟩

/-- A sample metadata entry used by concrete searcher instances. -/
def mA : Metadata :=
  { faiss_id := 0, chunk_id := "c0", text := "alpha text", char_count := 10,
    word_count := 2 }

/-- A second sample metadata entry. -/
def mB : Metadata :=
  { faiss_id := 1, chunk_id := "c1", text := "beta text", char_count := 9,
    word_count := 2 }

/-- A concrete searcher over one metadata entry whose index models exact
flat search: for any query it returns `k` pairs at positions `0..k-1`. -/
def searcherC3 : Searcher :=
  { textbook_id := "tb", config_textbook_name := none, metadata := [mA],
    encode := fun _ => [1],
    searchFn := fun _ k => (List.range k).map (fun i => ((0 : ℚ), Int.ofNat i)) }

/-- Witness for C3 at concrete invocations of `searcherC3`. -/
theorem C3_search_validation_witness :
    search searcherC3 "   " 5 = .error "Query cannot be empty"
    ∧ search searcherC3 "q" 0 = .error "top_k must be positive"
    ∧ search searcherC3 "q" 2 = search searcherC3 "q" 3
    ∧ ∃ rs, search searcherC3 "q" 5 = .ok rs ∧ rs.length = 1 :=
  ⟨C3_search_validation.1 searcherC3 "   " 5 (by decide),
   C3_search_validation.2.1 searcherC3 "q" 0 (by decide) (by decide),
   C3_search_validation.2.2.1 searcherC3 "q" 2 3 (by decide) (by decide),
   C3_search_validation.2.2.2 searcherC3 "q" 5 (by decide) (by decide)
     (fun qv => by simp [searcherC3])
     (fun qv p hp => by
        have hfn : searcherC3.searchFn qv searcherC3.metadata.length
            = [((0 : ℚ), Int.ofNat 0)] := rfl
        rw [hfn] at hp
        simp only [List.mem_singleton] at hp
        subst hp
        exact ⟨by decide, by decide⟩)⟩

/-- A concrete searcher over two metadata entries whose index returns the
position `-1` (FAISS's padding value when it holds fewer vectors than the
requested `k`). -/
def searcherC9 : Searcher :=
  { textbook_id := "tb", config_textbook_name := none, metadata := [mA, mB],
    encode := fun _ => [1],
    searchFn := fun _ _ => [((0 : ℚ), (-1 : Int))] }

/-- **C9 (counterexample).** A `(distance, position)` pair whose position is
`-1` — outside the zero-based bounds of the metadata table — is *not*
skipped: Python's negative indexing wraps around, so the search returns a
result whose metadata was looked up at position `-1` (the table's last
entry, `mB`). -/
theorem C9_counterexample :
    (-1 : Int) < 0
    ∧ search searcherC9 "q" 1 = .ok [((0 : ℚ), withTextbook searcherC9 mB)] := by
  have hq : pyStrip "q" ≠ "" := by decide
  exact ⟨by decide, by simp [search, searcherC9, query_embedding, resultsLoop,
    pyGet, Except.map, hq, mA, mB]⟩

/-- **C9 (amended).** The result loop enforces only the *upper* bound: a
pair whose position is at least the metadata length is silently skipped; a
pair with position in `[0, len)` is kept with the entry at that position; a
pair with a *negative* position within `[-len, 0)` is **not** skipped — it
is kept with the entry found by Python's wrap-around indexing at
`len + position`. -/
theorem C9_bounds_handling (s : Searcher) (d : ℚ) (idx : Int)
    (rest : List (ℚ × Int)) (m : Metadata) :
    ((s.metadata.length : Int) ≤ idx →
      resultsLoop s ((d, idx) :: rest) = resultsLoop s rest)
    ∧ (0 ≤ idx → idx < (s.metadata.length : Int) →
        s.metadata[idx.toNat]? = some m →
        resultsLoop s ((d, idx) :: rest)
          = (resultsLoop s rest).map (fun rs => (d, withTextbook s m) :: rs))
    ∧ (idx < 0 → (-idx).toNat ≤ s.metadata.length →
        s.metadata[s.metadata.length - (-idx).toNat]? = some m →
        resultsLoop s ((d, idx) :: rest)
          = (resultsLoop s rest).map (fun rs => (d, withTextbook s m) :: rs)) := by
  refine ⟨fun hge => ?_, fun h0 hlt hm => ?_, fun hneg hwrap hm => ?_⟩
  · rw [resultsLoop, if_neg (not_lt.mpr hge)]
  · have hpg : pyGet s.metadata idx = some m := by simp [pyGet, h0, hm]
    rw [resultsLoop, if_pos hlt, hpg]
  · have hlt : idx < (s.metadata.length : Int) := by omega
    have hn0 : ¬ (0 ≤ idx) := by omega
    have hpg : pyGet s.metadata idx = some m := by simp [pyGet, hn0, hwrap, hm]
    rw [resultsLoop, if_pos hlt, hpg]

/-- Witness for C9's amended statement: the wrap-around case at position
`-1` on `searcherC9`. -/
theorem C9_bounds_handling_witness :
    ((-1 : Int) < 0
      ∧ (-(-1 : Int)).toNat ≤ searcherC9.metadata.length
      ∧ searcherC9.metadata[searcherC9.metadata.length - (-(-1 : Int)).toNat]?
          = some mB)
    ∧ resultsLoop searcherC9 [((0 : ℚ), (-1 : Int))]
      = (resultsLoop searcherC9 []).map
          (fun rs => ((0 : ℚ), withTextbook searcherC9 mB) :: rs) :=
  ⟨⟨by decide, by decide, by decide⟩,
    (C9_bounds_handling searcherC9 0 (-1) [] mB).2.2
      (by decide) (by decide) (by decide)⟩

/-! ## Claims about collection loading (`MultiTextbookSearcher.__init__`) -/

/-- **C7 (counterexample).** Loading succeeds — no Corrupt condition is
raised — on a collection whose metadata table has 1 entry while the index
holds 5 vectors, and whose config names a different embedding model than the
requested one (the config model is silently adopted). -/
theorem C7_counterexample :
    initSearcher "intro_ml" "all-MiniLM-L6-v2"
        { config_exists := true, config_model_name := some "all-mpnet-base-v2",
          config_textbook_name := some "Intro to ML", index_exists := true,
          index_ntotal := 5, metadata_exists := true, metadata_val := .list [mA] }
      = .ok { metadata := [mA], ntotal := 5, model_name := "all-mpnet-base-v2",
              textbook_name := "Intro to ML" }
    ∧ ([mA].length ≠ 5)
    ∧ ("all-mpnet-base-v2" ≠ "all-MiniLM-L6-v2") := by
  exact ⟨by decide, by decide, by decide⟩

/-- **C7 (amended).** Loading detects neither corrupt condition of the
claim: whenever the three files exist and the pickled metadata is a list,
`__init__` succeeds even when the metadata length differs from the index
size and even when the configured embedding model differs from the requested
one — the config's model silently replaces the requested model (an INFO log,
not an error), and no size comparison between metadata and index exists in
the loader. -/
theorem C7_no_corrupt_detection (textbook_id model_name : String)
    (fs : FilesOnDisk) (ms : List Metadata)
    (hc : fs.config_exists = true) (hi : fs.index_exists = true)
    (hm : fs.metadata_exists = true) (hv : fs.metadata_val = .list ms)
    (hmismatch : ms.length ≠ fs.index_ntotal
      ∨ fs.config_model_name.getD model_name ≠ model_name) :
    initSearcher textbook_id model_name fs
      = .ok { metadata := ms, ntotal := fs.index_ntotal,
              model_name := fs.config_model_name.getD model_name,
              textbook_name := fs.config_textbook_name.getD textbook_id } := by
  simp [initSearcher, hc, hi, hm, hv]

/-- Witness for C7's amended statement at the concrete mismatched files. -/
theorem C7_no_corrupt_detection_witness :
    ((FilesOnDisk.mk true (some "all-mpnet-base-v2") (some "Intro to ML")
        true 5 true (.list [mA])).metadata_val = .list [mA]
      ∧ [mA].length ≠ 5)
    ∧ initSearcher "intro_ml" "all-MiniLM-L6-v2"
        (FilesOnDisk.mk true (some "all-mpnet-base-v2") (some "Intro to ML")
          true 5 true (.list [mA]))
      = .ok { metadata := [mA], ntotal := 5, model_name := "all-mpnet-base-v2",
              textbook_name := "Intro to ML" } :=
  ⟨⟨by decide, by decide⟩,
    C7_no_corrupt_detection "intro_ml" "all-MiniLM-L6-v2" _ [mA]
      (by decide) (by decide) (by decide) (by decide) (Or.inl (by decide))⟩

/-! ## Claims about the display similarity score -/

/-- Half-even rounding never exceeds the floor plus one. -/
theorem round_half_even_le_floor_add_one (x : ℚ) : round_half_even x ≤ ⌊x⌋ + 1 := by
  unfold round_half_even
  split_ifs <;> omega

/-- Half-even rounding is at least the floor. -/
theorem floor_le_round_half_even (x : ℚ) : ⌊x⌋ ≤ round_half_even x := by
  unfold round_half_even
  split_ifs <;> omega

/-- Half-even rounding is monotone. -/
theorem round_half_even_mono {x y : ℚ} (h : x ≤ y) :
    round_half_even x ≤ round_half_even y := by
  rcases lt_or_eq_of_le (Int.floor_mono h) with hlt | heq
  · have h1 := round_half_even_le_floor_add_one x
    have h2 := floor_le_round_half_even y
    omega
  · have heqq : ((⌊x⌋ : ℤ) : ℚ) = ((⌊y⌋ : ℤ) : ℚ) := by exact_mod_cast heq
    unfold round_half_even
    split_ifs <;> first
      | omega
      | linarith

/-- `round(·, 4)` is monotone. -/
theorem round_py4_mono {x y : ℚ} (h : x ≤ y) : round_py4 x ≤ round_py4 y := by
  unfold round_py4
  have h1 : x * 10000 ≤ y * 10000 := by linarith
  have h2 : ((round_half_even (x * 10000) : ℤ) : ℚ)
      ≤ ((round_half_even (y * 10000) : ℤ) : ℚ) := by
    exact_mod_cast round_half_even_mono h1
  exact (div_le_div_iff_of_pos_right (by norm_num)).mpr h2

/-- **C4 (counterexample).** The displayed score — `1/(1+d)` **rounded** to
4 decimal digits — is not strictly monotone: the distances 9999 and 10000
differ, yet both round to the same displayed score, so `d1 < d2` does not
imply `score(d1) > score(d2)` for the rounded score. -/
theorem C4_counterexample :
    (9999 : ℚ) < 10000 ∧ similarity_score 9999 = similarity_score 10000 :=
  ⟨by norm_num,
   by norm_num [similarity_score, similarity_raw, round_py4, round_half_even]⟩

/-- **C4 (amended).** The *unrounded* transform `1/(1+d)` is strictly
decreasing in the distance and bounded in `(0, 1]` for non-negative
distances; the *displayed* score rounds it to 4 decimal digits and is
therefore only weakly decreasing: `d1 ≤ d2` implies
`score(d2) ≤ score(d1)`. -/
theorem C4_score_transform :
    (∀ d1 d2 : ℚ, 0 ≤ d1 → d1 < d2 → similarity_raw d2 < similarity_raw d1)
    ∧ (∀ d : ℚ, 0 ≤ d → 0 < similarity_raw d ∧ similarity_raw d ≤ 1)
    ∧ (∀ d1 d2 : ℚ, 0 ≤ d1 → d1 ≤ d2 → similarity_score d2 ≤ similarity_score d1) := by
  refine ⟨fun d1 d2 h0 hlt => ?_, fun d h0 => ⟨?_, ?_⟩, fun d1 d2 h0 hle => ?_⟩
  · exact one_div_lt_one_div_of_lt (by linarith) (by linarith)
  · exact one_div_pos.mpr (by linarith)
  · exact (div_le_one (by linarith)).mpr (by linarith)
  · exact round_py4_mono (one_div_le_one_div_of_le (by linarith) (by linarith))

/-- Witness for C4's amended statement at the distances 0 and 1. -/
theorem C4_score_transform_witness :
    ((0 : ℚ) ≤ 0 ∧ (0 : ℚ) < 1)
    ∧ similarity_raw 1 < similarity_raw 0
    ∧ (0 < similarity_raw 0 ∧ similarity_raw 0 ≤ 1)
    ∧ similarity_score 1 ≤ similarity_score 0 :=
  ⟨⟨le_refl 0, by norm_num⟩,
   C4_score_transform.1 0 1 (le_refl 0) (by norm_num),
   C4_score_transform.2.1 0 (le_refl 0),
   C4_score_transform.2.2 0 1 (le_refl 0) (by norm_num)⟩

/-! ## Claims about index construction (`embedding_indexer.py` `main`) -/

/-- A chunk passing the validator's checks yields a metadata entry at any
position `i`, with `faiss_id = i`. -/
theorem chunkMetadata_of_check (c : RawChunk) (hc : chunkCheck c = true) (i : Nat) :
    ∃ m, chunkMetadata i c = some m ∧ m.faiss_id = i := by
  cases c with
  | nonDict => exact absurd hc (by simp [chunkCheck])
  | dict id text extra =>
    cases id with
    | none => exact absurd hc (by simp [chunkCheck])
    | some cid =>
      cases text with
      | none => exact absurd hc (by simp [chunkCheck])
      | some tf =>
        cases tf with
        | nonStr => exact absurd hc (by simp [chunkCheck])
        | str t => exact ⟨_, rfl, rfl⟩

/-- A chunk passing the validator's checks has an extractable text. -/
theorem chunkText_of_check (c : RawChunk) (hc : chunkCheck c = true) :
    ∃ t, chunkText c = some t := by
  cases c with
  | nonDict => exact absurd hc (by simp [chunkCheck])
  | dict id text extra =>
    cases id with
    | none => exact absurd hc (by simp [chunkCheck])
    | some cid =>
      cases text with
      | none => exact absurd hc (by simp [chunkCheck])
      | some tf =>
        cases tf with
        | nonStr => exact absurd hc (by simp [chunkCheck])
        | str t => exact ⟨t, rfl⟩

/-- On a list of chunks passing the checks, the metadata construction
succeeds, is one-to-one by position, and assigns `faiss_id = i + j` to the
entry at offset `j` when enumeration starts at `i`. -/
theorem metadataFrom_of_valid (l : List RawChunk)
    (hv : ∀ c ∈ l, chunkCheck c = true) :
    ∀ i, ∃ ms, metadataFrom i l = some ms ∧ ms.length = l.length
      ∧ ∀ j (h : j < ms.length), (ms.get ⟨j, h⟩).faiss_id = i + j := by
  induction l with
  | nil =>
    exact fun i => ⟨[], rfl, rfl, fun j h => absurd h (Nat.not_lt_zero j)⟩
  | cons c rest ih =>
    intro i
    obtain ⟨m, hm, hid⟩ :=
      chunkMetadata_of_check c (hv c (List.mem_cons_self _ _)) i
    obtain ⟨ms, hms, hlen, hget⟩ :=
      ih (fun c hc => hv c (List.mem_cons_of_mem _ hc)) (i + 1)
    refine ⟨m :: ms, ?_, by simp [hlen], ?_⟩
    · simp [metadataFrom, hm, hms]
    · intro j h
      cases j with
      | zero => simpa using hid
      | succ j =>
        have hj : j < ms.length := by simpa using h
        show (ms.get ⟨j, hj⟩).faiss_id = i + (j + 1)
        rw [hget j hj]
        omega

/-- On a list of chunks passing the checks, text extraction succeeds with
one text per chunk. -/
theorem chunkTexts_of_valid (l : List RawChunk)
    (hv : ∀ c ∈ l, chunkCheck c = true) :
    ∃ ts, chunkTexts l = some ts ∧ ts.length = l.length := by
  induction l with
  | nil => exact ⟨[], rfl, rfl⟩
  | cons c rest ih =>
    obtain ⟨t, ht⟩ := chunkText_of_check c (hv c (List.mem_cons_self _ _))
    obtain ⟨ts, hts, hlen⟩ := ih (fun c hc => hv c (List.mem_cons_of_mem _ hc))
    refine ⟨t :: ts, ?_, by simp [hlen]⟩
    have hts2 : rest.mapM chunkText = some ts := hts
    show (c :: rest).mapM chunkText = some (t :: ts)
    rw [List.mapM_cons, ht, hts2]
    rfl

/-- With a positive batch size, re-concatenating the batch slices restores
the original list (`np.vstack` of the per-batch results). -/
theorem batches_flatten {α : Type} (bs : Nat) (hbs : 0 < bs) (l : List α) :
    (batches bs l).flatten = l := by
  generalize hn : l.length = n
  induction n using Nat.strong_induction_on generalizing l with
  | _ n ih =>
    rw [batches]
    split_ifs with h1 h2
    · exact absurd h1 (by omega)
    · rw [List.isEmpty_iff.mp h2]
      rfl
    · have hne : l ≠ [] := fun he => h2 (by simp [he])
      have hlt : (l.drop bs).length < n := by
        rw [List.length_drop]
        have : 0 < l.length := List.length_pos.mpr hne
        omega
      rw [List.flatten_cons, ih _ (hn ▸ hlt) (l.drop bs) rfl,
        List.take_append_drop]

/-- With a positive batch size, batched embedding is embedding text by
text: one vector per chunk text, in input order. -/
theorem generate_embeddings_eq (encode : String → List ℝ) (texts : List String)
    (bs : Nat) (hbs : 0 < bs) :
    generate_embeddings encode texts bs = texts.map encode := by
  show (List.map (List.map encode) (batches bs texts)).flatten = texts.map encode
  rw [← List.map_flatten, batches_flatten bs hbs texts]

/-- A successfully built index stores exactly one vector per input
embedding (normalization under `"ip"` does not change the count). -/
theorem create_faiss_index_length (embeddings : List (List ℝ)) (it : String)
    (idx : List (List ℝ)) (h : create_faiss_index embeddings it = .ok idx) :
    idx.length = embeddings.length := by
  unfold create_faiss_index at h
  split_ifs at h with h1 h2
  · cases h
    rfl
  · cases h
    exact List.length_map _ _

/-- **C1.** For every non-empty list of chunks that pass validation, any
encoder, any positive batch size and any index type: text extraction and
metadata construction both succeed, and whenever the FAISS index build
succeeds, the number of stored vectors equals the number of metadata
entries, and the entry at each position `j` has `faiss_id = j`
(zero-based). -/
theorem C1_build_invariant (chunks : List RawChunk) (encode : String → List ℝ)
    (bs : Nat) (it : String) (hbs : 0 < bs) (hne : chunks ≠ [])
    (hv : ∀ c ∈ chunks, chunkCheck c = true) :
    ∃ texts mapping, chunkTexts chunks = some texts
      ∧ create_metadata_mapping chunks = some mapping
      ∧ ∀ idx, create_faiss_index (generate_embeddings encode texts bs) it = .ok idx →
          idx.length = mapping.length
          ∧ ∀ j (h : j < mapping.length), (mapping.get ⟨j, h⟩).faiss_id = j := by
  obtain ⟨texts, hts, htslen⟩ := chunkTexts_of_valid chunks hv
  obtain ⟨mapping, hmap, hmaplen, hget⟩ := metadataFrom_of_valid chunks hv 0
  refine ⟨texts, mapping, hts, hmap, fun idx hidx => ⟨?_, fun j h => ?_⟩⟩
  · rw [create_faiss_index_length _ _ _ hidx,
      generate_embeddings_eq encode texts bs hbs, List.length_map,
      htslen, hmaplen]
  · simpa using hget j h

/-- A concrete valid chunk for the C1 witness. -/
def chunkW : RawChunk := .dict (some "c1") (some (.str "abcdefghij")) {}

/-- Witness for C1 on a one-chunk build with the `"flat"` index type. -/
theorem C1_build_invariant_witness :
    (0 < 32 ∧ chunkW :: [] ≠ [] ∧ (∀ c ∈ [chunkW], chunkCheck c = true))
    ∧ ∃ texts mapping, chunkTexts [chunkW] = some texts
      ∧ create_metadata_mapping [chunkW] = some mapping
      ∧ ∀ idx, create_faiss_index
            (generate_embeddings (fun _ => [(1 : ℝ)]) texts 32) "flat" = .ok idx →
          idx.length = mapping.length
          ∧ ∀ j (h : j < mapping.length), (mapping.get ⟨j, h⟩).faiss_id = j :=
  ⟨⟨by decide, by decide, by decide⟩,
    C1_build_invariant [chunkW] (fun _ => [(1 : ℝ)]) 32 "flat"
      (by decide) (by decide) (by decide)⟩

/-! ## Claims about inner-product normalization -/

/-- `sumSq` over ℝ, cons case. -/
theorem sumSq_cons (x : ℝ) (v : List ℝ) : sumSq (x :: v) = x * x + sumSq v := by
  simp [sumSq]

/-- A sum of squares is non-negative. -/
theorem sumSq_nonneg (v : List ℝ) : 0 ≤ sumSq v := by
  induction v with
  | nil => simp [sumSq]
  | cons x v ih => rw [sumSq_cons]; exact add_nonneg (mul_self_nonneg x) ih

/-- Dividing every coordinate by `c` divides the sum of squares by `c²`. -/
theorem sumSq_map_div (v : List ℝ) (c : ℝ) :
    sumSq (v.map (fun x => x / c)) = sumSq v / (c * c) := by
  induction v with
  | nil => simp [sumSq]
  | cons x v ih =>
    simp only [List.map_cons, sumSq_cons, ih]
    rw [div_mul_div_comm, add_div]

/-- `faiss.normalize_L2` yields a unit vector whenever the input is not the
zero vector. -/
theorem l2normalize_unit (v : List ℝ) (h : sumSq v ≠ 0) :
    sumSq (l2normalize v) = 1 := by
  unfold l2normalize
  rw [sumSq_map_div, Real.mul_self_sqrt (sumSq_nonneg v), div_self h]

/-- A concrete searcher whose encoder outputs the non-unit vector `[2, 0]`
and whose index answers (with one hit) *only* when it receives exactly that
raw vector — so a hit proves the query vector reached the index without any
normalization. -/
def searcherC8 : Searcher :=
  { textbook_id := "tb", config_textbook_name := none, metadata := [mA],
    encode := fun _ => [2, 0],
    searchFn := fun v _ => if v = [2, 0] then [((0 : ℚ), (0 : Int))] else [] }

/-- **C8 (counterexample).** Query vectors are *not* L2-normalized before
querying: the encoder output `[2, 0]` has squared norm 4 ≠ 1, yet the index
— which answers only to the raw vector `[2, 0]` and returns nothing for any
other vector, including the unit-normalized `[1, 0]` — produces the hit, so
the non-unit vector was handed to the index unchanged. -/
theorem C8_counterexample :
    sumSq ([2, 0] : List ℚ) ≠ 1
    ∧ search searcherC8 " q " 1 = .ok [((0 : ℚ), withTextbook searcherC8 mA)] := by
  have hq : pyStrip " q " ≠ "" := by decide
  exact ⟨by norm_num [sumSq],
    by simp [search, searcherC8, query_embedding, resultsLoop, pyGet,
      Except.map, hq, mA]⟩

/-- **C8 (amended).** Under the inner-product metric the *stored* side does
normalize: a successful `"ip"` build stores exactly the L2-normalized
embeddings, and normalization produces unit vectors (squared norm 1) for
every non-zero input.  The *query* side does not: the vector handed to the
index is the raw encoder output — any vector, unit or not, can reach the
index (the query preparation imposes no constraint on its norm). -/
theorem C8_ip_normalization :
    (∀ (embs idx : List (List ℝ)),
      create_faiss_index embs "ip" = .ok idx → idx = embs.map l2normalize)
    ∧ (∀ v : List ℝ, sumSq v ≠ 0 → sumSq (l2normalize v) = 1)
    ∧ (∀ v : List ℚ, ∃ (s : Searcher) (q : String), query_embedding s q = v) := by
  refine ⟨fun embs idx h => ?_, l2normalize_unit, fun v => ?_⟩
  · have h1 : pyLower "ip" = "flat" ↔ False := by decide
    have h2 : pyLower "ip" = "ip" := by decide
    unfold create_faiss_index at h
    rw [h2] at h
    simp only [h1, if_false, if_pos] at h
    exact (Except.ok.injEq _ _).mp h.symm
  · exact ⟨{ textbook_id := "tb", config_textbook_name := none, metadata := [],
             encode := fun _ => v, searchFn := fun _ _ => [] }, "q", rfl⟩

/-- Witness for C8's amended statement: the `"ip"` build of the single
embedding `[3, 4]` stores its normalization, whose squared norm is 1. -/
theorem C8_ip_normalization_witness :
    (create_faiss_index [[(3 : ℝ), 4]] "ip" = .ok ([[(3 : ℝ), 4]].map l2normalize))
    ∧ sumSq [(3 : ℝ), 4] ≠ 0
    ∧ sumSq (l2normalize [(3 : ℝ), 4]) = 1 := by
  have h25 : sumSq [(3 : ℝ), 4] ≠ 0 := by norm_num [sumSq]
  have hidx : create_faiss_index [[(3 : ℝ), 4]] "ip"
      = .ok ([[(3 : ℝ), 4]].map l2normalize) := by
    have h1 : pyLower "ip" = "flat" ↔ False := by decide
    have h2 : pyLower "ip" = "ip" := by decide
    unfold create_faiss_index
    rw [h2]
    simp [h1]
  exact ⟨hidx, h25, C8_ip_normalization.2.1 [(3 : ℝ), 4] h25⟩

end TextbookChatbot
